import Mathlib

/-!
Verification development for the Lutox real-time generative-audio engine
(`LiveMusicHelper` and its recording/WAV-encoding pipeline).

The definitions below are a shallow embedding of the TypeScript source:
numbers that are IEEE floats in the source are modelled as rationals
(every concrete value used in a theorem below is exactly representable,
so the embedding is exact at those points), JavaScript `DataView` writes
are modelled as little-endian byte lists, Web Audio `AudioBuffer`s as a
record of channel count, frame count, sample rate and per-channel sample
lists, and the asynchronous play/stop/connect interleavings of the helper
as an explicit small-step machine over a state record whose fields mirror
the class fields.
-/

namespace Lutox

/-- Playback states of the engine, mirroring the `PlaybackState` union
`stopped | loading | playing | paused`. -/
inductive PlaybackState where
  | stopped
  | loading
  | playing
  | paused
deriving DecidableEq, Repr

/-- A weighted prompt. The helper reads only `text` and `weight`; the other
display-metadata fields of the source `Prompt` record (id, color, controlId)
play no role in the embedded code and are omitted. -/
structure Prompt where
  text : String
  weight : ℚ
deriving DecidableEq, Repr

/-- A decoded audio buffer: channel count, frame count, sample rate and the
per-channel sample data, mirroring the Web Audio `AudioBuffer` interface. -/
structure AudioBuffer where
  numberOfChannels : ℕ
  length : ℕ
  sampleRate : ℕ
  data : List (List ℚ)
deriving DecidableEq, Repr

/-- `AudioBuffer.duration` is frames divided by sample rate, as in Web Audio. -/
def AudioBuffer.duration (b : AudioBuffer) : ℚ := (b.length : ℚ) / (b.sampleRate : ℚ)

/-- Web Audio `AudioContext.createBuffer`: a zero-filled buffer. -/
def createBuffer (numberOfChannels totalLength sampleRate : ℕ) : AudioBuffer :=
  ⟨numberOfChannels, totalLength, sampleRate,
    List.replicate numberOfChannels (List.replicate totalLength 0)⟩

/-- Web Audio `AudioBuffer.getChannelData`: returns the channel's samples, and
throws an `IndexSizeError` when the channel index is out of range. -/
def getChannelData (b : AudioBuffer) (channel : ℕ) : Except String (List ℚ) :=
  if channel < b.numberOfChannels then Except.ok (b.data.getD channel [])
  else Except.error "IndexSizeError"

/-- Overwrite `dst` with `src` starting at `offset`, keeping the rest
(the in-range behaviour of Web Audio `copyToChannel`). -/
def writeInto (dst src : List ℚ) (offset : ℕ) : List ℚ :=
  dst.take offset ++ src.take (dst.length - offset) ++ dst.drop (offset + src.length)

/-- Web Audio `AudioBuffer.copyToChannel` on the embedded buffer record. -/
def copyToChannel (result : AudioBuffer) (src : List ℚ) (channel offset : ℕ) : AudioBuffer :=
  { result with data := result.data.set channel (writeInto (result.data.getD channel []) src offset) }

/-- The inner loop of `LiveMusicHelper.concatenateAudioBuffers`:
`for (let channel = 0; channel < numberOfChannels; channel++)
   result.copyToChannel(buffer.getChannelData(channel), channel, offset)`.
The first argument counts the remaining iterations, the second is the current
channel index; a `getChannelData` throw aborts the whole loop. -/
def copyChannelsAux (src : AudioBuffer) (offset : ℕ) :
    ℕ → ℕ → AudioBuffer → Except String AudioBuffer
  | 0, _, acc => Except.ok acc
  | n + 1, channel, acc =>
    match getChannelData src channel with
    | Except.error e => Except.error e
    | Except.ok channelData =>
        copyChannelsAux src offset n (channel + 1) (copyToChannel acc channelData channel offset)

/-- The outer loop of `LiveMusicHelper.concatenateAudioBuffers`: copy each
buffer in order at the running frame offset. -/
def concatLoop (numberOfChannels : ℕ) :
    List AudioBuffer → AudioBuffer → ℕ → Except String AudioBuffer
  | [], acc, _ => Except.ok acc
  | b :: rest, acc, offset =>
    match copyChannelsAux b offset numberOfChannels 0 acc with
    | Except.error e => Except.error e
    | Except.ok acc2 => concatLoop numberOfChannels rest acc2 (offset + b.length)

/-- `LiveMusicHelper.concatenateAudioBuffers`: throws on an empty list, takes
channel count and sample rate from the FIRST buffer, allocates the result with
the summed frame count, then copies every buffer's channels in order. There is
no validation of the later buffers' channel counts or sample rates beyond the
implicit `getChannelData` range check. -/
def concatenateAudioBuffers (buffers : List AudioBuffer) : Except String AudioBuffer :=
  match buffers with
  | [] => Except.error "Buffer list is empty"
  | b0 :: _ =>
    concatLoop b0.numberOfChannels buffers
      (createBuffer b0.numberOfChannels (buffers.map AudioBuffer.length).sum b0.sampleRate) 0

/-- Little-endian bytes of a 16-bit unsigned write (`DataView.setUint16`). -/
def u16le (v : ℕ) : List ℕ := [v % 256, v / 256 % 256]

/-- Little-endian bytes of a 32-bit unsigned write (`DataView.setUint32`). -/
def u32le (v : ℕ) : List ℕ := [v % 256, v / 256 % 256, v / 65536 % 256, v / 16777216 % 256]

/-- Little-endian bytes of a 16-bit signed write (`DataView.setInt16`):
the value is stored as its two's complement residue modulo 2^16. -/
def i16le (v : ℤ) : List ℕ := u16le (v % 65536).toNat

/-- Truncation toward zero, the semantics of JavaScript `| 0` for values inside
the 32-bit range. -/
def truncToInt (q : ℚ) : ℤ := if q < 0 then -(Int.floor (-q)) else Int.floor q

/-- The clamping step `Math.max(-1, Math.min(1, x))` of `audioBufferToWav`. -/
def clamp (x : ℚ) : ℚ := max (-1) (min 1 x)

/-- The per-sample conversion of `audioBufferToWav`:
`sample = Math.max(-1, Math.min(1, x)); sample = (0.5 + sample < 0 ? sample * 32768 : sample * 32767) | 0`.
Note that by JavaScript operator precedence the ternary condition is
`(0.5 + sample) < 0`, not `0.5 + (sample < 0 ...)`. -/
def toPcm16 (x : ℚ) : ℤ :=
  let sample := clamp x
  truncToInt (if 0.5 + sample < 0 then sample * 32768 else sample * 32767)

/-- Modelled from the spec for comparison with `toPcm16` (claim C5): the
clamped sample scaled by 32768 when negative and by 32767 when non-negative. -/
def pcm16Spec (x : ℚ) : ℤ :=
  truncToInt (if clamp x < 0 then clamp x * 32768 else clamp x * 32767)

/-- Sample `i` of channel `ch` (reads of `channels[ch][i]` in the data loop). -/
def sampleAt (b : AudioBuffer) (ch i : ℕ) : ℚ := (b.data.getD ch []).getD i 0

/-- One interleaved output frame of the WAV data loop: the 16-bit little-endian
samples of every channel at frame `i`. -/
def frameBytes (b : AudioBuffer) (i : ℕ) : List ℕ :=
  ((List.range b.numberOfChannels).map fun ch => i16le (toPcm16 (sampleAt b ch i))).flatten

/-- The full data section of the WAV file: frames in order, channels
interleaved within each frame. -/
def pcmData (b : AudioBuffer) : List ℕ :=
  ((List.range b.length).map fun i => frameBytes b i).flatten

/-- `LiveMusicHelper.audioBufferToWav` as the byte list it writes:
44-byte RIFF/WAVE header followed by interleaved little-endian 16-bit PCM.
`byteLength` is the variable `length` of the source
(`buffer.length * numOfChan * 2 + 44`). -/
def audioBufferToWav (buffer : AudioBuffer) : List ℕ :=
  let numOfChan := buffer.numberOfChannels
  let byteLength := buffer.length * numOfChan * 2 + 44
  [82, 73, 70, 70] ++ u32le (byteLength - 8) ++
  [87, 65, 86, 69] ++ [102, 109, 116, 32] ++
  u32le 16 ++ u16le 1 ++ u16le numOfChan ++
  u32le buffer.sampleRate ++ u32le (buffer.sampleRate * 2 * numOfChan) ++
  u16le (numOfChan * 2) ++ u16le 16 ++
  [100, 97, 116, 97] ++ u32le (byteLength - 44) ++
  pcmData buffer

/-- Read an unsigned little-endian 16-bit field at byte offset `off`. -/
def readU16LE (bytes : List ℕ) (off : ℕ) : ℕ :=
  bytes.getD off 0 + 256 * bytes.getD (off + 1) 0

/-- Read an unsigned little-endian 32-bit field at byte offset `off`. -/
def readU32LE (bytes : List ℕ) (off : ℕ) : ℕ :=
  bytes.getD off 0 + 256 * bytes.getD (off + 1) 0 +
  65536 * bytes.getD (off + 2) 0 + 16777216 * bytes.getD (off + 3) 0

/-- Outcome of `LiveMusicHelper.stopRecordingAndDownload`: the error events it
dispatches, the WAV bytes it downloads (if any), and the recording fields it
leaves behind. -/
structure DownloadOutcome where
  errorEvents : List String
  file : Option (List ℕ)
  recordedBuffersAfter : List AudioBuffer
  isRecordingAfter : Bool
deriving Repr

/-- `LiveMusicHelper.stopRecordingAndDownload`: no-op unless recording; error
event (and no file) on an empty capture; otherwise concatenate, encode and
download, with any thrown error caught and surfaced as an error event; the
buffer list is cleared on both the success and the caught-error path. -/
def stopRecordingAndDownload (isRecording : Bool) (recordedBuffers : List AudioBuffer) :
    DownloadOutcome :=
  if !isRecording then ⟨[], none, recordedBuffers, isRecording⟩
  else if recordedBuffers.length = 0 then ⟨["Nothing was recorded."], none, recordedBuffers, false⟩
  else
    match concatenateAudioBuffers recordedBuffers with
    | Except.ok fullBuffer => ⟨[], some (audioBufferToWav fullBuffer), [], false⟩
    | Except.error _ => ⟨["Could not process recorded audio."], none, [], false⟩

/-- Ramp targets of the effect-chain gain nodes. All parameter changes in the
source are `linearRampToValueAtTime` calls; the fields hold the ramp targets
("up to ramp settling"). -/
structure EffectsState where
  distortionWet : ℚ
  delayWet : ℚ
  delayFeedback : ℚ
  reverbWet : ℚ
  masterVolume : ℚ
deriving DecidableEq, Repr

/-- The gain values set in the `LiveMusicHelper` constructor:
`distortionWetGain.gain.value = 0`, `delayNode.delayTime.value = 0.4`,
`delayFeedback.gain.value = 0.5`, `delayWetGain.gain.value = 0`,
`reverbWetGain.gain.value = 0`, `masterVolumeNode.gain.value = 1`. -/
def initialEffects : EffectsState :=
  { distortionWet := 0, delayWet := 0, delayFeedback := 0.5, reverbWet := 0, masterVolume := 1 }

/-- The public effect-parameter setters of `LiveMusicHelper`. -/
inductive EffectCommand where
  | setDistortion (amount : ℚ)
  | setDelay (amount : ℚ)
  | setReverb (amount : ℚ)
  | setMasterVolume (amount : ℚ)
deriving DecidableEq, Repr

/-- One effect-parameter setter call: `setDelay(amount)` ramps the delay wet
gain to `amount` and the delay feedback gain to `amount * 0.7`; the other
setters each ramp their own gain only. -/
def applyEffectCommand (s : EffectsState) : EffectCommand → EffectsState
  | EffectCommand.setDistortion amount => { s with distortionWet := amount }
  | EffectCommand.setDelay amount => { s with delayWet := amount, delayFeedback := amount * 0.7 }
  | EffectCommand.setReverb amount => { s with reverbWet := amount }
  | EffectCommand.setMasterVolume amount => { s with masterVolume := amount }

/-- A sequence of effect-parameter setter calls. -/
def applyEffectCommands (s : EffectsState) (cmds : List EffectCommand) : EffectsState :=
  cmds.foldl applyEffectCommand s

/-- A session handle as seen by the helper: either a live backend session
(identified by which connect attempt produced it) or the mock object that a
failed connect returns. -/
inductive SessionHandle where
  | live (id : ℕ)
  | mock
deriving DecidableEq, Repr

/-- The mutable state of a `LiveMusicHelper` instance together with the
observable calls it makes. Fields up to `playingTimerArmed` mirror class
fields of the source; the remaining fields record dispatched events
(`stateLog`, `errorEvents`), calls into the session handle
(`sessionPlayCalls`, `sessionPauseCalls`, `sessionStopCalls`,
`deliveredPrompts`), scheduled buffer sources (`scheduled`, as pairs of start
time and buffer), the fallback `HTMLAudioElement` volumes
(`fallbackVolumes`) and whether the `setTimeout` arming the
`loading → playing` transition is pending (`playingTimerArmed`).
`pendingPlay` holds the promise a suspended `play()` is awaiting at
`this.session = await this.getSession()`. -/
structure HelperState where
  playbackState : PlaybackState
  session : Option SessionHandle
  sessionPromise : Option ℕ
  pendingPlay : Option ℕ
  nextConnectId : ℕ
  isFallbackMode : Bool
  fallbackPlaying : Bool
  fallbackVolumes : List (String × ℚ)
  prompts : List Prompt
  filteredPrompts : List String
  nextStartTime : ℚ
  bufferTime : ℚ
  outputGainTarget : ℚ
  isRecording : Bool
  recordedBuffers : List AudioBuffer
  scheduled : List (ℚ × AudioBuffer)
  playingTimerArmed : Bool
  stateLog : List PlaybackState
  errorEvents : List String
  sessionPlayCalls : List SessionHandle
  sessionPauseCalls : List SessionHandle
  sessionStopCalls : List SessionHandle
  deliveredPrompts : List (SessionHandle × List Prompt)
deriving DecidableEq, Repr

/-- The state of a freshly constructed helper (constructor of
`LiveMusicHelper`), with a given initial prompt map. -/
def initHelper (prompts : List Prompt) : HelperState :=
  { playbackState := PlaybackState.stopped
    session := none
    sessionPromise := none
    pendingPlay := none
    nextConnectId := 0
    isFallbackMode := false
    fallbackPlaying := false
    fallbackVolumes := []
    prompts := prompts
    filteredPrompts := []
    nextStartTime := 0
    bufferTime := 2
    outputGainTarget := 1
    isRecording := false
    recordedBuffers := []
    scheduled := []
    playingTimerArmed := false
    stateLog := []
    errorEvents := []
    sessionPlayCalls := []
    sessionPauseCalls := []
    sessionStopCalls := []
    deliveredPrompts := [] }

/-- The `activePrompts` getter: prompts whose text is not filtered and whose
weight is not 0. -/
def activePromptsOf (prompts : List Prompt) (filtered : List String) : List Prompt :=
  prompts.filter fun p => !(filtered.contains p.text) && !(p.weight == 0)

/-- `setPlaybackState`: store the state and dispatch
`playback-state-changed` (recorded in `stateLog`). -/
def setPlaybackState (s : HelperState) (st : PlaybackState) : HelperState :=
  { s with playbackState := st, stateLog := s.stateLog ++ [st] }

/-- `LiveMusicHelper.pause`: pause fallback players or the session, set state
`paused`, ramp the output gain to 0 and reset `nextStartTime`. -/
def pauseHelper (s : HelperState) : HelperState :=
  let s1 :=
    if s.isFallbackMode then { s with fallbackPlaying := false }
    else
      match s.session with
      | some h => { s with sessionPauseCalls := s.sessionPauseCalls ++ [h] }
      | none => s
  let s2 := setPlaybackState s1 PlaybackState.paused
  { s2 with outputGainTarget := 0, nextStartTime := 0 }

/-- `LiveMusicHelper.stop`: stop fallback players or the session, set state
`stopped`, ramp the output gain to 0, reset `nextStartTime`, and discard
`session`, `sessionPromise` and the fallback flag. No epoch or generation
counter exists in the source; these resets are all that `stop` does. -/
def stopHelper (s : HelperState) : HelperState :=
  let s1 :=
    if s.isFallbackMode then { s with fallbackPlaying := false }
    else
      match s.session with
      | some h => { s with sessionStopCalls := s.sessionStopCalls ++ [h] }
      | none => s
  let s2 := setPlaybackState s1 PlaybackState.stopped
  { s2 with
    outputGainTarget := 0
    nextStartTime := 0
    session := none
    sessionPromise := none
    isFallbackMode := false }

/-- The body of the throttled `setWeightedPrompts` (one delivery): store the
prompt map; in fallback mode set every player's volume to `min(weight, 1)` of
the first active prompt matching its key, else 0; otherwise raise an error
event and pause when no prompt is active, and deliver the active prompts to
the session when one is present. -/
def setWeightedPromptsHelper (s : HelperState) (prompts : List Prompt) : HelperState :=
  let s1 := { s with prompts := prompts }
  if s1.isFallbackMode then
    { s1 with
      fallbackVolumes := s1.fallbackVolumes.map fun tv =>
        match (activePromptsOf s1.prompts s1.filteredPrompts).find?
            (fun p => p.text == tv.1) with
        | some p => (tv.1, min p.weight 1)
        | none => (tv.1, 0) }
  else if (activePromptsOf s1.prompts s1.filteredPrompts).isEmpty then
    pauseHelper
      { s1 with errorEvents := s1.errorEvents ++ ["There needs to be one active prompt to play."] }
  else
    match s1.session with
    | none => s1
    | some h =>
      { s1 with
        deliveredPrompts :=
          s1.deliveredPrompts ++ [(h, activePromptsOf s1.prompts s1.filteredPrompts)] }

/-- The continuation of `LiveMusicHelper.play` after
`this.session = await this.getSession()` resolves with `handle`: in fallback
mode start the players, deliver the prompts and set state `playing`;
otherwise deliver the prompts, call `session.play()` and ramp the output gain
to 1. -/
def playContinuation (s : HelperState) (handle : SessionHandle) : HelperState :=
  let s1 := { s with session := some handle }
  if s1.isFallbackMode then
    let s2 := { s1 with fallbackPlaying := true }
    let s3 := setWeightedPromptsHelper s2 s2.prompts
    setPlaybackState s3 PlaybackState.playing
  else
    let s2 := setWeightedPromptsHelper s1 s1.prompts
    let s3 :=
      match s2.session with
      | some h => { s2 with sessionPlayCalls := s2.sessionPlayCalls ++ [h] }
      | none => s2
    { s3 with outputGainTarget := 1 }

/-- The synchronous prefix of `LiveMusicHelper.play`: set state `loading`,
then `getSession()` (reuse the pending connect promise or start a new
connect attempt) and suspend awaiting it. -/
def startPlay (s : HelperState) : HelperState :=
  let s1 := setPlaybackState s PlaybackState.loading
  match s1.sessionPromise with
  | some pid => { s1 with pendingPlay := some pid }
  | none =>
    { s1 with
      sessionPromise := some s1.nextConnectId
      pendingPlay := some s1.nextConnectId
      nextConnectId := s1.nextConnectId + 1 }

/-- The keys of `FALLBACK_AUDIO_MAP`. -/
def fallbackPlayerKeys : List String :=
  ["Bossa Nova", "Chillwave", "Drum and Bass", "Funk", "Ambient", "Lo-fi"]

/-- `initializeFallbackPlayers`: one looping player per fallback asset,
volume 0. -/
def initializeFallbackPlayers (s : HelperState) : HelperState :=
  { s with fallbackVolumes := fallbackPlayerKeys.map fun text => (text, 0) }

/-- How a connect attempt finishes. -/
inductive ConnectOutcome where
  | success
  | failure
deriving DecidableEq, Repr

/-- Resolution of the connect promise a suspended `play()` awaits: on success
`connect()` returns a live session and clears the fallback flag; on failure
it dispatches an error event, enters fallback mode, initialises the fallback
players and returns the mock session. Either way the awaiting `play()`
continuation then runs. -/
def resolveConnect (s : HelperState) (outcome : ConnectOutcome) : HelperState :=
  match s.pendingPlay with
  | none => s
  | some pid =>
    match outcome with
    | ConnectOutcome.success =>
      playContinuation { s with isFallbackMode := false, pendingPlay := none }
        (SessionHandle.live pid)
    | ConnectOutcome.failure =>
      playContinuation
        (initializeFallbackPlayers
          { s with
            isFallbackMode := true
            pendingPlay := none
            errorEvents := s.errorEvents ++
              ["Real-time connection failed. Activating offline fallback mode with local audio samples."] })
        SessionHandle.mock

/-- `LiveMusicHelper.processAudioChunks`, at the arrival of one
`onAudioChunk` callback: drop everything when paused or stopped; otherwise
decode `audioChunks[0]` only, append it to the recording buffer when
recording, start the pre-roll (and arm the `setTimeout` for
`loading → playing`) when `nextStartTime` is 0, detect an underrun
(`nextStartTime < now`) by resetting to `loading` without scheduling, and
otherwise schedule the buffer at `nextStartTime` and advance it by the
buffer's duration. `decode` stands for
`decodeAudioData(decode(chunk.data), ctx, 48000, 2)` and `now` for
`audioContext.currentTime`. -/
def processAudioChunks (decode : String → AudioBuffer) (now : ℚ) (s : HelperState)
    (audioChunks : List String) : HelperState :=
  if s.playbackState = PlaybackState.paused ∨ s.playbackState = PlaybackState.stopped then s
  else
    match audioChunks with
    | [] => s
    | c :: _ =>
      let audioBuffer := decode c
      let s1 :=
        if s.isRecording then { s with recordedBuffers := s.recordedBuffers ++ [audioBuffer] }
        else s
      let s2 :=
        if s1.nextStartTime = 0 then
          { s1 with nextStartTime := now + s1.bufferTime, playingTimerArmed := true }
        else s1
      if s2.nextStartTime < now then
        let s3 := setPlaybackState s2 PlaybackState.loading
        { s3 with nextStartTime := 0 }
      else
        { s2 with
          scheduled := s2.scheduled ++ [(s2.nextStartTime, audioBuffer)]
          nextStartTime := s2.nextStartTime + audioBuffer.duration }

/-- The externally triggered transitions of the helper: the public commands,
the resolution of an in-flight connect, the arrival of an `onAudioChunk`
callback, and the firing of the armed pre-roll timer. -/
inductive HelperAction where
  | startPlayCmd
  | resolve (outcome : ConnectOutcome)
  | stopCmd
  | pauseCmd
  | setPromptsCmd (prompts : List Prompt)
  | chunksArrive (chunks : List String) (now : ℚ)
  | playingTimerFires

/-- One step of the helper machine. -/
def stepHelper (decode : String → AudioBuffer) (s : HelperState) : HelperAction → HelperState
  | HelperAction.startPlayCmd => startPlay s
  | HelperAction.resolve outcome => resolveConnect s outcome
  | HelperAction.stopCmd => stopHelper s
  | HelperAction.pauseCmd => pauseHelper s
  | HelperAction.setPromptsCmd prompts => setWeightedPromptsHelper s prompts
  | HelperAction.chunksArrive chunks now => processAudioChunks decode now s chunks
  | HelperAction.playingTimerFires =>
    if s.playingTimerArmed then
      setPlaybackState { s with playingTimerArmed := false } PlaybackState.playing
    else s

/-- Run the helper machine over a list of actions. -/
def runHelper (decode : String → AudioBuffer) (s : HelperState) (acts : List HelperAction) :
    HelperState :=
  acts.foldl (stepHelper decode) s

/-- A fixed decode function for concrete traces: every chunk decodes to a
one-second 48 kHz stereo buffer of silence. -/
def decode0 : String → AudioBuffer := fun _ => createBuffer 2 48000 48000

/-- A helper state in mid-playback with a pre-roll horizon already set,
used to instantiate the scheduler theorems. -/
def underrunState : HelperState :=
  { initHelper [] with playbackState := PlaybackState.playing, nextStartTime := 1 }

/-- `underrunState` with recording active. -/
def underrunRecState : HelperState :=
  { underrunState with isRecording := true }

/-- A helper state that is in fallback mode with one fallback player, used to
instantiate the fallback-volume theorem. -/
def fallbackDemoState : HelperState :=
  { initHelper [] with
    isFallbackMode := true
    fallbackVolumes := [("Funk", 0)] }

/-- A 3-second 48 kHz stereo buffer (the concatenation of three one-second
stereo buffers), used to instantiate the WAV-layout theorem. -/
def wavDemoBuffer : AudioBuffer := createBuffer 2 144000 48000

/-- One-frame mono buffers of silence at mismatched sample rates, used to
exhibit the missing sample-rate validation in the recorder. -/
def rate48Buffer : AudioBuffer := ⟨1, 1, 48000, [[0]]⟩

/-- See `rate48Buffer`. -/
def rate44Buffer : AudioBuffer := ⟨1, 1, 44100, [[0]]⟩

/-- A stereo buffer followed by a mono buffer: the mono buffer has fewer
channels than the first buffer, used to instantiate the amended recorder
theorem. -/
def stereoHeadBuffer : AudioBuffer := ⟨2, 1, 48000, [[0], [0]]⟩

/-- See `stereoHeadBuffer`. -/
def monoTailBuffer : AudioBuffer := ⟨1, 1, 48000, [[0]]⟩

theorem flatten_length_const {α : Type} (l : List (List α)) (k : ℕ)
    (h : ∀ x ∈ l, x.length = k) : l.flatten.length = l.length * k := by
  induction l with
  | nil => simp
  | cons x rest ih =>
    simp only [List.flatten_cons, List.length_append, List.length_cons]
    rw [h x (by simp), ih fun y hy => h y (by simp [hy])]
    ring

theorem frameBytes_length (b : AudioBuffer) (i : ℕ) :
    (frameBytes b i).length = b.numberOfChannels * 2 := by
  unfold frameBytes
  rw [flatten_length_const _ 2]
  · simp
  · intro x hx
    simp only [List.mem_map] at hx
    obtain ⟨ch, _, rfl⟩ := hx
    rfl

theorem pcmData_length (b : AudioBuffer) :
    (pcmData b).length = b.length * (b.numberOfChannels * 2) := by
  unfold pcmData
  rw [flatten_length_const _ (b.numberOfChannels * 2)]
  · simp
  · intro x hx
    simp only [List.mem_map] at hx
    obtain ⟨i, _, rfl⟩ := hx
    exact frameBytes_length b i

theorem truncToInt_bounds (q : ℚ) (h1 : -32768 ≤ q) (h2 : q ≤ 32767) :
    -32768 ≤ truncToInt q ∧ truncToInt q ≤ 32767 := by
  unfold truncToInt
  by_cases hq : q < 0
  · rw [if_pos hq]
    have hle : -q ≤ (32768 : ℚ) := by linarith
    have hfl : Int.floor (-q) ≤ Int.floor ((32768 : ℚ)) := Int.floor_le_floor hle
    have h32 : Int.floor ((32768 : ℚ)) = 32768 := by norm_num
    have hnn : 0 ≤ Int.floor (-q) := Int.floor_nonneg.mpr (by linarith)
    omega
  · rw [if_neg hq]
    push_neg at hq
    have hnn : 0 ≤ Int.floor q := Int.floor_nonneg.mpr hq
    have hfl : Int.floor q ≤ Int.floor ((32767 : ℚ)) := Int.floor_le_floor h2
    have h32 : Int.floor ((32767 : ℚ)) = 32767 := by norm_num
    omega

theorem neg_one_le_clamp (x : ℚ) : -1 ≤ clamp x := le_max_left _ _

theorem clamp_le_one (x : ℚ) : clamp x ≤ 1 := by
  apply max_le
  · norm_num
  · exact min_le_left _ _

theorem chunks_preserved (decode : String → AudioBuffer) (s : HelperState)
    (h : s.playbackState = PlaybackState.stopped ∨ s.playbackState = PlaybackState.paused)
    (arrivals : List (List String × ℚ)) :
    runHelper decode s (arrivals.map fun a => HelperAction.chunksArrive a.1 a.2) = s := by
  induction arrivals with
  | nil => rfl
  | cons a rest ih =>
    have hstep : stepHelper decode s (HelperAction.chunksArrive a.1 a.2) = s := by
      rcases h with h | h <;> simp [stepHelper, processAudioChunks, h]
    simp only [List.map_cons, runHelper, List.foldl_cons] at *
    rw [hstep]
    exact ih

/-- Claim C8 counterexample: at engine construction the delay feedback gain is
initialized to 0.5 while the delay wet gain is 0, so `feedback = wet * 0.7`
fails at construction (0.5 ≠ 0 * 0.7). -/
theorem claim8_counterexample :
    initialEffects.delayFeedback ≠ initialEffects.delayWet * 0.7 := by
  norm_num [initialEffects]

/-- Claim C8 (amended): after any `setDelay(amount)` call, and through any
further sequence of effect-setter calls, the delay feedback ramp target
equals the delay wet ramp target times 0.7; at construction, however,
the feedback gain starts at 0.5 with the wet gain at 0, so the relation
only holds from the first `setDelay` on. -/
theorem claim8_amended (s : EffectsState) (amount : ℚ) (cmds : List EffectCommand) :
    (applyEffectCommands (applyEffectCommand s (EffectCommand.setDelay amount)) cmds).delayFeedback =
      (applyEffectCommands (applyEffectCommand s (EffectCommand.setDelay amount)) cmds).delayWet * 0.7 ∧
    initialEffects.delayFeedback = 0.5 ∧ initialEffects.delayWet = 0 := by
  refine ⟨?_, rfl, rfl⟩
  have base : (applyEffectCommand s (EffectCommand.setDelay amount)).delayFeedback =
      (applyEffectCommand s (EffectCommand.setDelay amount)).delayWet * 0.7 := rfl
  generalize applyEffectCommand s (EffectCommand.setDelay amount) = t at base ⊢
  induction cmds generalizing t with
  | nil => exact base
  | cons cmd rest ih =>
    have hstep : applyEffectCommands t (cmd :: rest) =
        applyEffectCommands (applyEffectCommand t cmd) rest := rfl
    rw [hstep]
    apply ih
    cases cmd <;> simp_all [applyEffectCommand]

/-- Claim C5 counterexample: for the input sample -1/4 the code computes
-1/4 * 32767 truncated toward zero, namely -8191, because the ternary
condition `0.5 + sample < 0` is false at -1/4; the claimed rule (negative
values scale toward -32768) would give -8192. -/
theorem claim5_counterexample :
    toPcm16 (-(1/4)) = -8191 ∧ pcm16Spec (-(1/4)) = -8192 ∧
    toPcm16 (-(1/4)) ≠ pcm16Spec (-(1/4)) := by
  refine ⟨?_, ?_, ?_⟩ <;>
    norm_num [toPcm16, pcm16Spec, clamp, truncToInt, min_def, max_def]

/-- Claim C5 (amended): the 16-bit value written for a sample `x` is the
clamped value scaled by 32768 only when the clamped value is below -0.5
(the code's test is `(0.5 + sample) < 0`), and by 32767 otherwise —
so clamped values in [-0.5, 0) also scale by 32767 — truncated toward
zero; the result always fits the signed 16-bit range, and the bytes
emitted into the data chunk are its little-endian two's complement. -/
theorem claim5_amended (x : ℚ) :
    (audioBufferToWav ⟨1, 1, 48000, [[x]]⟩).drop 44 = i16le (toPcm16 x) ∧
    toPcm16 x = (if clamp x < -(1/2) then truncToInt (clamp x * 32768)
      else truncToInt (clamp x * 32767)) ∧
    -32768 ≤ toPcm16 x ∧ toPcm16 x ≤ 32767 := by
  have hsel : toPcm16 x = (if clamp x < -(1/2) then truncToInt (clamp x * 32768)
      else truncToInt (clamp x * 32767)) := by
    by_cases h : clamp x < -(1/2)
    · have h2 : (0.5 : ℚ) + clamp x < 0 := by linarith
      rw [if_pos h]
      simp [toPcm16, h2]
    · have h2 : ¬((0.5 : ℚ) + clamp x < 0) := fun hc => h (by linarith)
      rw [if_neg h]
      simp [toPcm16, h2]
  refine ⟨rfl, hsel, ?_, ?_⟩
  · rw [hsel]
    by_cases h : clamp x < -(1/2)
    · rw [if_pos h]
      exact (truncToInt_bounds _ (by nlinarith [neg_one_le_clamp x]) (by nlinarith)).1
    · rw [if_neg h]
      push_neg at h
      exact (truncToInt_bounds _ (by nlinarith [neg_one_le_clamp x])
        (by nlinarith [clamp_le_one x])).1
  · rw [hsel]
    by_cases h : clamp x < -(1/2)
    · rw [if_pos h]
      exact (truncToInt_bounds _ (by nlinarith [neg_one_le_clamp x]) (by nlinarith)).2
    · rw [if_neg h]
      push_neg at h
      exact (truncToInt_bounds _ (by nlinarith [neg_one_le_clamp x])
        (by nlinarith [clamp_le_one x])).2

/-- Claim C6: a decoded buffer arriving while the engine is playing or loading
with a nonzero pre-roll horizon that now lies in the past (an underrun) makes
the scheduler reset `nextStartTime` to 0 and transition to `loading`, and the
triggering buffer is not scheduled. -/
theorem claim6_underrun_resets (decode : String → AudioBuffer) (now : ℚ) (s : HelperState)
    (c : String) (rest : List String)
    (hstate : s.playbackState = PlaybackState.playing ∨ s.playbackState = PlaybackState.loading)
    (hnz : s.nextStartTime ≠ 0) (hlt : s.nextStartTime < now) :
    (processAudioChunks decode now s (c :: rest)).nextStartTime = 0 ∧
    (processAudioChunks decode now s (c :: rest)).playbackState = PlaybackState.loading ∧
    (processAudioChunks decode now s (c :: rest)).scheduled = s.scheduled := by
  have hps : ¬(s.playbackState = PlaybackState.paused ∨
      s.playbackState = PlaybackState.stopped) := by
    rcases hstate with h | h <;> simp [h]
  by_cases hrec : s.isRecording <;>
    simp [processAudioChunks, hps, hrec, hnz, hlt, setPlaybackState]

/-- Witness for `claim6_underrun_resets` at a concrete state: horizon 1,
current time 2. -/
theorem claim6_witness :
    (underrunState.playbackState = PlaybackState.playing ∨
      underrunState.playbackState = PlaybackState.loading) ∧
    underrunState.nextStartTime ≠ 0 ∧ underrunState.nextStartTime < 2 ∧
    (processAudioChunks decode0 2 underrunState ["chunk"]).nextStartTime = 0 ∧
    (processAudioChunks decode0 2 underrunState ["chunk"]).playbackState =
      PlaybackState.loading ∧
    (processAudioChunks decode0 2 underrunState ["chunk"]).scheduled =
      underrunState.scheduled := by
  have h1 : underrunState.playbackState = PlaybackState.playing ∨
      underrunState.playbackState = PlaybackState.loading := Or.inl rfl
  have h2 : underrunState.nextStartTime ≠ 0 := by norm_num [underrunState, initHelper]
  have h3 : underrunState.nextStartTime < 2 := by norm_num [underrunState, initHelper]
  obtain ⟨e1, e2, e3⟩ := claim6_underrun_resets decode0 2 underrunState "chunk" [] h1 h2 h3
  exact ⟨h1, h2, h3, e1, e2, e3⟩

/-- Claim C9: one `onAudioChunk` delivery only ever decodes, records and
schedules `audioChunks[0]`: the result does not depend on the chunks after
the first, and the recording buffer grows by at most the decoded first
chunk. -/
theorem claim9_only_first_chunk (decode : String → AudioBuffer) (now : ℚ) (s : HelperState)
    (c : String) (rest rest2 : List String) :
    processAudioChunks decode now s (c :: rest) = processAudioChunks decode now s (c :: rest2) ∧
    ((processAudioChunks decode now s (c :: rest)).recordedBuffers = s.recordedBuffers ∨
      (processAudioChunks decode now s (c :: rest)).recordedBuffers =
        s.recordedBuffers ++ [decode c]) := by
  refine ⟨rfl, ?_⟩
  by_cases hps : s.playbackState = PlaybackState.paused ∨
      s.playbackState = PlaybackState.stopped
  · left
    simp [processAudioChunks, hps]
  · by_cases hrec : s.isRecording
    · right
      simp only [processAudioChunks, if_neg hps, if_pos hrec]
      split_ifs <;> simp [setPlaybackState]
    · left
      simp only [processAudioChunks, if_neg hps, if_neg hrec]
      split_ifs <;> simp [setPlaybackState]

/-- Claim C10: while recording, a buffer that triggers the underrun branch has
already been appended to the recording list (the append precedes the underrun
check), yet it is never scheduled for playback. -/
theorem claim10_recorded_not_scheduled (decode : String → AudioBuffer) (now : ℚ)
    (s : HelperState) (c : String) (rest : List String)
    (hrec : s.isRecording = true)
    (hstate : s.playbackState = PlaybackState.playing ∨ s.playbackState = PlaybackState.loading)
    (hnz : s.nextStartTime ≠ 0) (hlt : s.nextStartTime < now) :
    (processAudioChunks decode now s (c :: rest)).recordedBuffers =
      s.recordedBuffers ++ [decode c] ∧
    (processAudioChunks decode now s (c :: rest)).scheduled = s.scheduled := by
  have hps : ¬(s.playbackState = PlaybackState.paused ∨
      s.playbackState = PlaybackState.stopped) := by
    rcases hstate with h | h <;> simp [h]
  simp [processAudioChunks, hps, hrec, hnz, hlt, setPlaybackState]

/-- Witness for `claim10_recorded_not_scheduled` at a concrete recording
state: the underrun buffer lands in the recording list and not in the
schedule. -/
theorem claim10_witness :
    underrunRecState.isRecording = true ∧
    (underrunRecState.playbackState = PlaybackState.playing ∨
      underrunRecState.playbackState = PlaybackState.loading) ∧
    underrunRecState.nextStartTime ≠ 0 ∧ underrunRecState.nextStartTime < 2 ∧
    (processAudioChunks decode0 2 underrunRecState ["chunk"]).recordedBuffers =
      underrunRecState.recordedBuffers ++ [decode0 "chunk"] ∧
    (processAudioChunks decode0 2 underrunRecState ["chunk"]).scheduled =
      underrunRecState.scheduled := by
  have h0 : underrunRecState.isRecording = true := rfl
  have h1 : underrunRecState.playbackState = PlaybackState.playing ∨
      underrunRecState.playbackState = PlaybackState.loading := Or.inl rfl
  have h2 : underrunRecState.nextStartTime ≠ 0 := by
    norm_num [underrunRecState, underrunState, initHelper]
  have h3 : underrunRecState.nextStartTime < 2 := by
    norm_num [underrunRecState, underrunState, initHelper]
  obtain ⟨e1, e2⟩ :=
    claim10_recorded_not_scheduled decode0 2 underrunRecState "chunk" [] h0 h1 h2 h3
  exact ⟨h0, h1, h2, h3, e1, e2⟩

/-- Claim C7: in fallback mode a prompt delivery keeps the set of fallback
asset keys and sets each asset's volume to `min(weight, 1)` of the first
active prompt whose text equals the asset's key, and to 0 when no active
prompt matches. -/
theorem claim7_fallback_volumes (s : HelperState) (prompts : List Prompt)
    (hfb : s.isFallbackMode = true) :
    (setWeightedPromptsHelper s prompts).fallbackVolumes.map Prod.fst =
      s.fallbackVolumes.map Prod.fst ∧
    ∀ t w, (t, w) ∈ (setWeightedPromptsHelper s prompts).fallbackVolumes →
      (∃ p, (activePromptsOf prompts s.filteredPrompts).find? (fun q => q.text == t) = some p ∧
        w = min p.weight 1) ∨
      ((∀ p ∈ activePromptsOf prompts s.filteredPrompts, p.text ≠ t) ∧ w = 0) := by
  constructor
  · simp only [setWeightedPromptsHelper, hfb, if_pos, List.map_map]
    apply List.map_congr_left
    intro tv _
    rcases hf : (activePromptsOf prompts s.filteredPrompts).find? (fun p => p.text == tv.1) with
      _ | p <;> simp [hf]
  · intro t w hmem
    simp only [setWeightedPromptsHelper, hfb, if_pos, List.mem_map] at hmem
    obtain ⟨tv, _, heq⟩ := hmem
    rcases hf : (activePromptsOf prompts s.filteredPrompts).find? (fun p => p.text == tv.1) with
      _ | p
    · rw [hf] at heq
      obtain ⟨rfl, rfl⟩ := Prod.mk.injEq .. ▸ heq
      right
      refine ⟨?_, rfl⟩
      intro p hp
      have := List.find?_eq_none.mp hf p hp
      simpa using this
    · rw [hf] at heq
      obtain ⟨rfl, rfl⟩ := Prod.mk.injEq .. ▸ heq
      left
      exact ⟨p, hf, rfl⟩

/-- Witness for `claim7_fallback_volumes` at a concrete fallback state with a
single asset. -/
theorem claim7_witness :
    fallbackDemoState.isFallbackMode = true ∧
    (setWeightedPromptsHelper fallbackDemoState [⟨"Funk", 1⟩]).fallbackVolumes.map Prod.fst =
      fallbackDemoState.fallbackVolumes.map Prod.fst := by
  exact ⟨rfl, (claim7_fallback_volumes fallbackDemoState [⟨"Funk", 1⟩] rfl).1⟩

theorem copyChannelsAux_ok (src : AudioBuffer) (offset : ℕ) (n ch : ℕ) (acc : AudioBuffer)
    (h : ch + n ≤ src.numberOfChannels) :
    ∃ acc2, copyChannelsAux src offset n ch acc = Except.ok acc2 := by
  induction n generalizing ch acc with
  | zero => exact ⟨acc, rfl⟩
  | succ n ih =>
    have hch : ch < src.numberOfChannels := by omega
    simp only [copyChannelsAux, getChannelData, if_pos hch]
    exact ih (ch + 1) _ (by omega)

theorem copyChannelsAux_error (src : AudioBuffer) (offset : ℕ) (n ch : ℕ) (acc : AudioBuffer)
    (h1 : ch ≤ src.numberOfChannels) (h2 : src.numberOfChannels < ch + n) :
    copyChannelsAux src offset n ch acc = Except.error "IndexSizeError" := by
  induction n generalizing ch acc with
  | zero => omega
  | succ n ih =>
    by_cases hch : ch < src.numberOfChannels
    · simp only [copyChannelsAux, getChannelData, if_pos hch]
      exact ih (ch + 1) _ (by omega) (by omega)
    · simp only [copyChannelsAux, getChannelData, if_neg hch]

theorem concatLoop_ok (numCh : ℕ) (bufs : List AudioBuffer) (acc : AudioBuffer) (off : ℕ)
    (h : ∀ b ∈ bufs, numCh ≤ b.numberOfChannels) :
    ∃ r, concatLoop numCh bufs acc off = Except.ok r := by
  induction bufs generalizing acc off with
  | nil => exact ⟨acc, rfl⟩
  | cons b rest ih =>
    obtain ⟨acc2, hacc⟩ := copyChannelsAux_ok b off numCh 0 acc
      (by simpa using h b (by simp))
    simp only [concatLoop, hacc]
    exact ih _ _ fun x hx => h x (List.mem_cons_of_mem _ hx)

theorem concatLoop_error (numCh : ℕ) (bufs : List AudioBuffer) (acc : AudioBuffer) (off : ℕ)
    (h : ∃ b ∈ bufs, b.numberOfChannels < numCh) :
    concatLoop numCh bufs acc off = Except.error "IndexSizeError" := by
  induction bufs generalizing acc off with
  | nil => simp at h
  | cons b rest ih =>
    by_cases hb : b.numberOfChannels < numCh
    · have herr := copyChannelsAux_error b off numCh 0 acc (by omega) (by omega)
      simp only [concatLoop, herr]
    · obtain ⟨acc2, hacc⟩ := copyChannelsAux_ok b off numCh 0 acc (by omega)
      simp only [concatLoop, hacc]
      apply ih
      obtain ⟨b2, hb2, hlt⟩ := h
      rcases List.mem_cons.mp hb2 with rfl | hb2
      · omega
      · exact ⟨b2, hb2, hlt⟩

/-- Claim C2 counterexample: two recorded one-frame mono buffers at 48000 Hz
and 44100 Hz have mismatched sample rates, yet `stopRecordingAndDownload`
raises no error and emits a WAV file — there is no fail-fast mismatch check. -/
theorem claim2_counterexample :
    rate48Buffer.sampleRate ≠ rate44Buffer.sampleRate ∧
    (stopRecordingAndDownload true [rate48Buffer, rate44Buffer]).errorEvents = [] ∧
    (stopRecordingAndDownload true [rate48Buffer, rate44Buffer]).file.isSome = true := by
  exact ⟨by decide, rfl, rfl⟩

/-- Claim C2 (amended): `stopRecordingAndDownload` performs no sample-rate or
channel-count validation. Concatenation reads channel count and sample rate
from the first buffer only; the only failure a mismatch can cause is the
`getChannelData` throw when a later buffer has FEWER channels than the first,
in which case the error is caught, surfaced as an error event and no file is
emitted. Buffers that differ only in sample rate (or have extra channels) are
concatenated silently at the first buffer's parameters and a file is emitted. -/
theorem claim2_amended (b0 : AudioBuffer) (rest : List AudioBuffer) :
    ((stopRecordingAndDownload true (b0 :: rest)).file = none ↔
      ∃ b ∈ rest, b.numberOfChannels < b0.numberOfChannels) ∧
    ((∃ b ∈ rest, b.numberOfChannels < b0.numberOfChannels) →
      (stopRecordingAndDownload true (b0 :: rest)).errorEvents =
        ["Could not process recorded audio."]) := by
  by_cases hex : ∃ b ∈ rest, b.numberOfChannels < b0.numberOfChannels
  · have herr : concatenateAudioBuffers (b0 :: rest) = Except.error "IndexSizeError" := by
      obtain ⟨b, hb, hlt⟩ := hex
      exact concatLoop_error _ _ _ _ ⟨b, by simp [hb], hlt⟩
    simp [stopRecordingAndDownload, herr, hex]
  · have hall : ∀ b ∈ b0 :: rest, b0.numberOfChannels ≤ b.numberOfChannels := by
      push_neg at hex
      intro b hb
      rcases List.mem_cons.mp hb with rfl | hb
      · exact le_refl _
      · exact hex b hb
    obtain ⟨r, hr⟩ := concatLoop_ok b0.numberOfChannels (b0 :: rest)
      (createBuffer b0.numberOfChannels ((b0 :: rest).map AudioBuffer.length).sum b0.sampleRate)
      0 hall
    have hok : concatenateAudioBuffers (b0 :: rest) = Except.ok r := hr
    simp [stopRecordingAndDownload, hok, hex]

theorem wavByte4 (b : AudioBuffer) :
    (audioBufferToWav b).getD 4 0 = (b.length * b.numberOfChannels * 2 + 44 - 8) % 256 := rfl

theorem wavByte5 (b : AudioBuffer) :
    (audioBufferToWav b).getD 5 0 = (b.length * b.numberOfChannels * 2 + 44 - 8) / 256 % 256 := rfl

theorem wavByte6 (b : AudioBuffer) :
    (audioBufferToWav b).getD 6 0 = (b.length * b.numberOfChannels * 2 + 44 - 8) / 65536 % 256 := rfl

theorem wavByte7 (b : AudioBuffer) :
    (audioBufferToWav b).getD 7 0 = (b.length * b.numberOfChannels * 2 + 44 - 8) / 16777216 % 256 := rfl

theorem wavByte22 (b : AudioBuffer) :
    (audioBufferToWav b).getD 22 0 = b.numberOfChannels % 256 := rfl

theorem wavByte23 (b : AudioBuffer) :
    (audioBufferToWav b).getD 23 0 = b.numberOfChannels / 256 % 256 := rfl

theorem wavByte24 (b : AudioBuffer) :
    (audioBufferToWav b).getD 24 0 = b.sampleRate % 256 := rfl

theorem wavByte25 (b : AudioBuffer) :
    (audioBufferToWav b).getD 25 0 = b.sampleRate / 256 % 256 := rfl

theorem wavByte26 (b : AudioBuffer) :
    (audioBufferToWav b).getD 26 0 = b.sampleRate / 65536 % 256 := rfl

theorem wavByte27 (b : AudioBuffer) :
    (audioBufferToWav b).getD 27 0 = b.sampleRate / 16777216 % 256 := rfl

theorem wavByte28 (b : AudioBuffer) :
    (audioBufferToWav b).getD 28 0 = b.sampleRate * 2 * b.numberOfChannels % 256 := rfl

theorem wavByte29 (b : AudioBuffer) :
    (audioBufferToWav b).getD 29 0 = b.sampleRate * 2 * b.numberOfChannels / 256 % 256 := rfl

theorem wavByte30 (b : AudioBuffer) :
    (audioBufferToWav b).getD 30 0 = b.sampleRate * 2 * b.numberOfChannels / 65536 % 256 := rfl

theorem wavByte31 (b : AudioBuffer) :
    (audioBufferToWav b).getD 31 0 = b.sampleRate * 2 * b.numberOfChannels / 16777216 % 256 := rfl

theorem wavByte32 (b : AudioBuffer) :
    (audioBufferToWav b).getD 32 0 = b.numberOfChannels * 2 % 256 := rfl

theorem wavByte33 (b : AudioBuffer) :
    (audioBufferToWav b).getD 33 0 = b.numberOfChannels * 2 / 256 % 256 := rfl

theorem wavByte34 (b : AudioBuffer) :
    (audioBufferToWav b).getD 34 0 = 16 := rfl

theorem wavByte35 (b : AudioBuffer) :
    (audioBufferToWav b).getD 35 0 = 0 := rfl

theorem wavByte40 (b : AudioBuffer) :
    (audioBufferToWav b).getD 40 0 = (b.length * b.numberOfChannels * 2 + 44 - 44) % 256 := rfl

theorem wavByte41 (b : AudioBuffer) :
    (audioBufferToWav b).getD 41 0 = (b.length * b.numberOfChannels * 2 + 44 - 44) / 256 % 256 := rfl

theorem wavByte42 (b : AudioBuffer) :
    (audioBufferToWav b).getD 42 0 = (b.length * b.numberOfChannels * 2 + 44 - 44) / 65536 % 256 := rfl

theorem wavByte43 (b : AudioBuffer) :
    (audioBufferToWav b).getD 43 0 = (b.length * b.numberOfChannels * 2 + 44 - 44) / 16777216 % 256 := rfl

theorem wavRiffTag (b : AudioBuffer) : (audioBufferToWav b).take 4 = [82, 73, 70, 70] := rfl

theorem wavWaveTag (b : AudioBuffer) :
    ((audioBufferToWav b).drop 8).take 4 = [87, 65, 86, 69] := rfl

theorem wavFmtTag (b : AudioBuffer) :
    ((audioBufferToWav b).drop 12).take 4 = [102, 109, 116, 32] := rfl

theorem wavDataTag (b : AudioBuffer) :
    ((audioBufferToWav b).drop 36).take 4 = [100, 97, 116, 97] := rfl

theorem wavDropHeader (b : AudioBuffer) : (audioBufferToWav b).drop 44 = pcmData b := rfl

theorem wavHeaderLen (b : AudioBuffer) : ((audioBufferToWav b).take 44).length = 44 := rfl

/-- Claim C4: the WAV bytes for a buffer of `f` frames, `c` channels, rate `r`
have total length `f*c*2 + 44`, start with `RIFF` and a size field equal to
the total length minus 8, carry `WAVE`, an `fmt ` chunk with channel count
`c`, sample rate `r`, byte rate `r*2*c`, block align `c*2` and 16 bits per
sample, and a `data` chunk whose size field and actual byte count equal
`f*c*2`; all multi-byte fields are little-endian. The hypotheses say that the
fields fit their 32- and 16-bit slots. -/
theorem claim4_wav_layout (b : AudioBuffer)
    (h1 : b.length * b.numberOfChannels * 2 + 36 < 4294967296)
    (h2 : b.sampleRate < 4294967296)
    (h3 : b.sampleRate * 2 * b.numberOfChannels < 4294967296)
    (h4 : b.numberOfChannels * 2 < 65536) :
    (audioBufferToWav b).length = b.length * b.numberOfChannels * 2 + 44 ∧
    (audioBufferToWav b).take 4 = [82, 73, 70, 70] ∧
    readU32LE (audioBufferToWav b) 4 = (audioBufferToWav b).length - 8 ∧
    ((audioBufferToWav b).drop 8).take 4 = [87, 65, 86, 69] ∧
    ((audioBufferToWav b).drop 12).take 4 = [102, 109, 116, 32] ∧
    readU16LE (audioBufferToWav b) 22 = b.numberOfChannels ∧
    readU32LE (audioBufferToWav b) 24 = b.sampleRate ∧
    readU32LE (audioBufferToWav b) 28 = b.sampleRate * 2 * b.numberOfChannels ∧
    readU16LE (audioBufferToWav b) 32 = b.numberOfChannels * 2 ∧
    readU16LE (audioBufferToWav b) 34 = 16 ∧
    ((audioBufferToWav b).drop 36).take 4 = [100, 97, 116, 97] ∧
    readU32LE (audioBufferToWav b) 40 = b.length * b.numberOfChannels * 2 ∧
    ((audioBufferToWav b).drop 44).length = b.length * b.numberOfChannels * 2 := by
  have htail : ((audioBufferToWav b).drop 44).length = b.length * b.numberOfChannels * 2 := by
    rw [wavDropHeader, pcmData_length]
    ring
  have hlen : (audioBufferToWav b).length = b.length * b.numberOfChannels * 2 + 44 := by
    have hsplit : audioBufferToWav b =
        (audioBufferToWav b).take 44 ++ (audioBufferToWav b).drop 44 :=
      (List.take_append_drop 44 _).symm
    calc (audioBufferToWav b).length
        = ((audioBufferToWav b).take 44 ++ (audioBufferToWav b).drop 44).length := by
          rw [← hsplit]
      _ = 44 + (b.length * b.numberOfChannels * 2) := by
          rw [List.length_append, wavHeaderLen, htail]
      _ = b.length * b.numberOfChannels * 2 + 44 := by ring
  refine ⟨hlen, wavRiffTag b, ?_, wavWaveTag b, wavFmtTag b, ?_, ?_, ?_, ?_, ?_,
    wavDataTag b, ?_, htail⟩
  · rw [hlen]
    simp only [readU32LE, Nat.reduceAdd, wavByte4, wavByte5, wavByte6, wavByte7]
    omega
  · simp only [readU16LE, Nat.reduceAdd, wavByte22, wavByte23]
    omega
  · simp only [readU32LE, Nat.reduceAdd, wavByte24, wavByte25, wavByte26, wavByte27]
    omega
  · simp only [readU32LE, Nat.reduceAdd, wavByte28, wavByte29, wavByte30, wavByte31]
    omega
  · simp only [readU16LE, Nat.reduceAdd, wavByte32, wavByte33]
    omega
  · simp only [readU16LE, Nat.reduceAdd, wavByte34, wavByte35]
  · simp only [readU32LE, Nat.reduceAdd, wavByte40, wavByte41, wavByte42, wavByte43]
    omega

/-- Witness for `claim4_wav_layout` at the concatenation of three one-second
48 kHz stereo buffers (144000 frames, 2 channels): the data chunk holds
exactly 3 * 48000 * 2 * 2 bytes. -/
theorem claim4_witness :
    wavDemoBuffer.length * wavDemoBuffer.numberOfChannels * 2 + 36 < 4294967296 ∧
    wavDemoBuffer.sampleRate < 4294967296 ∧
    wavDemoBuffer.sampleRate * 2 * wavDemoBuffer.numberOfChannels < 4294967296 ∧
    wavDemoBuffer.numberOfChannels * 2 < 65536 ∧
    readU32LE (audioBufferToWav wavDemoBuffer) 40 = 3 * 48000 * 2 * 2 ∧
    ((audioBufferToWav wavDemoBuffer).drop 44).length = 3 * 48000 * 2 * 2 ∧
    (audioBufferToWav wavDemoBuffer).length = 3 * 48000 * 2 * 2 + 44 := by
  have h1 : wavDemoBuffer.length * wavDemoBuffer.numberOfChannels * 2 + 36 < 4294967296 := by
    decide
  have h2 : wavDemoBuffer.sampleRate < 4294967296 := by decide
  have h3 : wavDemoBuffer.sampleRate * 2 * wavDemoBuffer.numberOfChannels < 4294967296 := by
    decide
  have h4 : wavDemoBuffer.numberOfChannels * 2 < 65536 := by decide
  obtain ⟨hlen, _, _, _, _, _, _, _, _, _, _, hdsz, hdlen⟩ :=
    claim4_wav_layout wavDemoBuffer h1 h2 h3 h4
  refine ⟨h1, h2, h3, h4, ?_, ?_, ?_⟩
  · rw [hdsz]; decide
  · rw [hdlen]; decide
  · rw [hlen]; decide

/-- Claim C1 counterexample: `play()` is invoked, then `stop()` while the
connect attempt is still in flight, then the connect resolves. The session
from that stale attempt IS stored in `this.session`, receives the prompt
delivery and gets `session.play()` invoked on it — there is no epoch counter
and the late session is activated, contrary to the claim. -/
theorem claim1_counterexample :
    (runHelper decode0 (initHelper [⟨"Bossa Nova", 1⟩])
      [HelperAction.startPlayCmd, HelperAction.stopCmd,
        HelperAction.resolve ConnectOutcome.success]).sessionPlayCalls =
      [SessionHandle.live 0] ∧
    (runHelper decode0 (initHelper [⟨"Bossa Nova", 1⟩])
      [HelperAction.startPlayCmd, HelperAction.stopCmd,
        HelperAction.resolve ConnectOutcome.success]).session =
      some (SessionHandle.live 0) ∧
    (runHelper decode0 (initHelper [⟨"Bossa Nova", 1⟩])
      [HelperAction.startPlayCmd, HelperAction.stopCmd,
        HelperAction.resolve ConnectOutcome.success]).deliveredPrompts =
      [(SessionHandle.live 0, [⟨"Bossa Nova", 1⟩])] := by
  exact ⟨rfl, rfl, rfl⟩

/-- Claim C1 (amended): there is no epoch counter; `stop()` merely clears
`session`/`sessionPromise` and sets the state to `stopped`. A session
resolving from the stale connect attempt is still assigned and played
(see the counterexample), but every chunk it delivers afterwards is discarded
by the `paused`/`stopped` early return of `processAudioChunks`: after
`play(); stop();` and the late connect resolution, any sequence of chunk
arrivals schedules nothing and the state never becomes `playing`. -/
theorem claim1_amended (decode : String → AudioBuffer) (prompts : List Prompt)
    (arrivals : List (List String × ℚ)) :
    (runHelper decode (initHelper prompts)
      ([HelperAction.startPlayCmd, HelperAction.stopCmd,
        HelperAction.resolve ConnectOutcome.success] ++
        arrivals.map fun a => HelperAction.chunksArrive a.1 a.2)).scheduled = [] ∧
    (runHelper decode (initHelper prompts)
      ([HelperAction.startPlayCmd, HelperAction.stopCmd,
        HelperAction.resolve ConnectOutcome.success] ++
        arrivals.map fun a => HelperAction.chunksArrive a.1 a.2)).playbackState ≠
      PlaybackState.playing ∧
    PlaybackState.playing ∉ (runHelper decode (initHelper prompts)
      ([HelperAction.startPlayCmd, HelperAction.stopCmd,
        HelperAction.resolve ConnectOutcome.success] ++
        arrivals.map fun a => HelperAction.chunksArrive a.1 a.2)).stateLog := by
  have hsplit : runHelper decode (initHelper prompts)
      ([HelperAction.startPlayCmd, HelperAction.stopCmd,
        HelperAction.resolve ConnectOutcome.success] ++
        arrivals.map fun a => HelperAction.chunksArrive a.1 a.2) =
      runHelper decode (runHelper decode (initHelper prompts)
        [HelperAction.startPlayCmd, HelperAction.stopCmd,
          HelperAction.resolve ConnectOutcome.success])
        (arrivals.map fun a => HelperAction.chunksArrive a.1 a.2) := by
    simp [runHelper, List.foldl_append]
  have hmid2 : (runHelper decode (initHelper prompts)
      [HelperAction.startPlayCmd, HelperAction.stopCmd,
        HelperAction.resolve ConnectOutcome.success]).playbackState = PlaybackState.stopped ∨
      (runHelper decode (initHelper prompts)
      [HelperAction.startPlayCmd, HelperAction.stopCmd,
        HelperAction.resolve ConnectOutcome.success]).playbackState = PlaybackState.paused := by
    by_cases hemp : (activePromptsOf prompts []).isEmpty
    · right
      simp [runHelper, stepHelper, startPlay, stopHelper, resolveConnect, playContinuation,
        setWeightedPromptsHelper, pauseHelper, setPlaybackState, initHelper, hemp]
    · left
      simp [runHelper, stepHelper, startPlay, stopHelper, resolveConnect, playContinuation,
        setWeightedPromptsHelper, pauseHelper, setPlaybackState, initHelper, hemp]
  have hmid1 : (runHelper decode (initHelper prompts)
      [HelperAction.startPlayCmd, HelperAction.stopCmd,
        HelperAction.resolve ConnectOutcome.success]).scheduled = [] := by
    by_cases hemp : (activePromptsOf prompts []).isEmpty <;>
      simp [runHelper, stepHelper, startPlay, stopHelper, resolveConnect, playContinuation,
        setWeightedPromptsHelper, pauseHelper, setPlaybackState, initHelper, hemp]
  have hmid3 : PlaybackState.playing ∉ (runHelper decode (initHelper prompts)
      [HelperAction.startPlayCmd, HelperAction.stopCmd,
        HelperAction.resolve ConnectOutcome.success]).stateLog := by
    by_cases hemp : (activePromptsOf prompts []).isEmpty <;>
      simp [runHelper, stepHelper, startPlay, stopHelper, resolveConnect, playContinuation,
        setWeightedPromptsHelper, pauseHelper, setPlaybackState, initHelper, hemp]
  rw [hsplit, chunks_preserved decode _ hmid2 arrivals]
  refine ⟨hmid1, ?_, hmid3⟩
  rcases hmid2 with h | h <;> simp [h]

/-- Claim C3 counterexample: in fallback mode (after a failed connect) a
`play()` with an empty prompt set reaches playback state `playing` and no
delivery error is raised — the empty-`activePrompts` guard of
`setWeightedPrompts` sits after the fallback branch, and the fallback path of
`play()` sets `playing` unconditionally. -/
theorem claim3_counterexample :
    (runHelper decode0 (initHelper [])
      [HelperAction.startPlayCmd,
        HelperAction.resolve ConnectOutcome.failure]).playbackState =
      PlaybackState.playing ∧
    activePromptsOf [] [] = [] ∧
    "There needs to be one active prompt to play." ∉ (runHelper decode0 (initHelper [])
      [HelperAction.startPlayCmd,
        HelperAction.resolve ConnectOutcome.failure]).errorEvents := by
  refine ⟨rfl, rfl, ?_⟩
  decide

/-- Claim C3 (amended): in LIVE session mode the claim holds: a `play()` whose
prompt set has no active prompt raises the delivery error event and forces the
engine into `paused`; the state never becomes `playing`, through any further
chunk arrivals, and nothing is scheduled. (In fallback mode the claim fails,
see the counterexample.) -/
theorem claim3_amended (decode : String → AudioBuffer) (prompts : List Prompt)
    (arrivals : List (List String × ℚ)) (h : activePromptsOf prompts [] = []) :
    (runHelper decode (initHelper prompts)
      ([HelperAction.startPlayCmd, HelperAction.resolve ConnectOutcome.success] ++
        arrivals.map fun a => HelperAction.chunksArrive a.1 a.2)).playbackState =
      PlaybackState.paused ∧
    "There needs to be one active prompt to play." ∈ (runHelper decode (initHelper prompts)
      ([HelperAction.startPlayCmd, HelperAction.resolve ConnectOutcome.success] ++
        arrivals.map fun a => HelperAction.chunksArrive a.1 a.2)).errorEvents ∧
    PlaybackState.playing ∉ (runHelper decode (initHelper prompts)
      ([HelperAction.startPlayCmd, HelperAction.resolve ConnectOutcome.success] ++
        arrivals.map fun a => HelperAction.chunksArrive a.1 a.2)).stateLog ∧
    (runHelper decode (initHelper prompts)
      ([HelperAction.startPlayCmd, HelperAction.resolve ConnectOutcome.success] ++
        arrivals.map fun a => HelperAction.chunksArrive a.1 a.2)).scheduled = [] := by
  have hemp : (activePromptsOf prompts []).isEmpty := List.isEmpty_iff.mpr h
  have hsplit : runHelper decode (initHelper prompts)
      ([HelperAction.startPlayCmd, HelperAction.resolve ConnectOutcome.success] ++
        arrivals.map fun a => HelperAction.chunksArrive a.1 a.2) =
      runHelper decode (runHelper decode (initHelper prompts)
        [HelperAction.startPlayCmd, HelperAction.resolve ConnectOutcome.success])
        (arrivals.map fun a => HelperAction.chunksArrive a.1 a.2) := by
    simp [runHelper, List.foldl_append]
  have hmid0 : (runHelper decode (initHelper prompts)
      [HelperAction.startPlayCmd, HelperAction.resolve ConnectOutcome.success]).playbackState =
      PlaybackState.paused := by
    simp [runHelper, stepHelper, startPlay, resolveConnect, playContinuation,
      setWeightedPromptsHelper, pauseHelper, setPlaybackState, initHelper, hemp]
  have hmid1 : "There needs to be one active prompt to play." ∈ (runHelper decode
      (initHelper prompts)
      [HelperAction.startPlayCmd, HelperAction.resolve ConnectOutcome.success]).errorEvents := by
    simp [runHelper, stepHelper, startPlay, resolveConnect, playContinuation,
      setWeightedPromptsHelper, pauseHelper, setPlaybackState, initHelper, hemp]
  have hmid2 : PlaybackState.playing ∉ (runHelper decode (initHelper prompts)
      [HelperAction.startPlayCmd, HelperAction.resolve ConnectOutcome.success]).stateLog := by
    simp [runHelper, stepHelper, startPlay, resolveConnect, playContinuation,
      setWeightedPromptsHelper, pauseHelper, setPlaybackState, initHelper, hemp]
  have hmid3 : (runHelper decode (initHelper prompts)
      [HelperAction.startPlayCmd, HelperAction.resolve ConnectOutcome.success]).scheduled = [] := by
    simp [runHelper, stepHelper, startPlay, resolveConnect, playContinuation,
      setWeightedPromptsHelper, pauseHelper, setPlaybackState, initHelper, hemp]
  rw [hsplit, chunks_preserved decode _ (Or.inr hmid0) arrivals]
  exact ⟨hmid0, hmid1, hmid2, hmid3⟩

/-- Witness for `claim3_amended`: with an empty prompt set, a live-mode play
followed by a chunk arrival ends paused. -/
theorem claim3_witness :
    activePromptsOf [] [] = [] ∧
    (runHelper decode0 (initHelper [])
      ([HelperAction.startPlayCmd, HelperAction.resolve ConnectOutcome.success] ++
        ([(["chunk"], (5 : ℚ))]).map fun a =>
          HelperAction.chunksArrive a.1 a.2)).playbackState = PlaybackState.paused := by
  exact ⟨rfl, (claim3_amended decode0 [] [(["chunk"], (5 : ℚ))] rfl).1⟩

end Lutox
